import Mathlib

/- Verification of the core of the Breast-Cancer-Histopathology repository:
   a shallow embedding of src/src/enumerables.py and src/src/feature_selection.py,
   with theorems settling the frozen claims about them.

   Numeric cells are modelled as rationals; quantities whose computation in the
   source involves a square root (standard deviations, Pearson correlation) live
   in the reals. -/

/-- Column-major data frame: an ordered list of named columns of rational values.
Models a pandas DataFrame whose cells are numeric (the upstream pipeline
guarantees numeric feature columns). -/
structure DataFrame where
  cols : List (String × List ℚ)
deriving DecidableEq

namespace DataFrame

/-- Models `df.drop(columns=name)`: remove every column with the given name. -/
def drop (df : DataFrame) (name : String) : DataFrame :=
  ⟨df.cols.filter (fun c => c.1 != name)⟩

/-- First column carrying the given name, as pandas column lookup finds it. -/
def find (df : DataFrame) (name : String) : Option (String × List ℚ) :=
  df.cols.find? (fun c => c.1 == name)

/-- Models `df[name]` on a frame where the column is present (the empty list is
returned when it is absent; all theorems use frames that do have the column). -/
def get (df : DataFrame) (name : String) : List ℚ :=
  ((df.find name).getD (name, [])).2

/-- Models `df.loc[:, names]`: select the named columns, in the given order. -/
def loc (df : DataFrame) (names : List String) : DataFrame :=
  ⟨names.filterMap (fun n => df.find n)⟩

/-- Column names, in order. -/
def names (df : DataFrame) : List String :=
  df.cols.map Prod.fst

end DataFrame

/-- Arithmetic mean, as `np.mean` / `DataFrame.mean` computes it. -/
def qMean (l : List ℚ) : ℚ :=
  l.sum / (l.length : ℚ)

/-- Sample variance with `ddof = 1`, the quantity under `np.std(-, ddof=1)`. -/
def sampleVar (l : List ℚ) : ℚ :=
  (l.map (fun x => (x - qMean l) ^ 2)).sum / ((l.length : ℚ) - 1)

/-- Sample standard deviation with `ddof = 1`, models `np.std(-, ddof=1)`. -/
noncomputable def sampleSd (l : List ℚ) : ℝ :=
  Real.sqrt ((sampleVar l : ℚ) : ℝ)

/-- Models the row selection `xs.loc[ys == v]`: keep the entries of `xs` whose
matching entry of `ys` equals `v`. -/
def selectRows (xs ys : List ℚ) (v : ℚ) : List ℚ :=
  (xs.zip ys).filterMap (fun p => if p.2 = v then some p.1 else none)

/- ----------------------------------------------------------------
   src/src/enumerables.py
   ---------------------------------------------------------------- -/

/-- The `CVSplit` enum of src/src/enumerables.py, lines 88-93: five members,
carrying no payload beyond their identity. -/
inductive CVSplit
  | KFold3
  | KFold5
  | KFold10
  | KFold20
  | Holdout
deriving DecidableEq

/-- Python value used in enum lookup by value: `CVSplit(x)` compares `x` against
each member's declared value. A float and a string never compare equal in
Python, which the constructor separation mirrors. -/
inductive PyVal
  | str (s : String)
  | num (q : ℚ)
deriving DecidableEq

/-- The declared enum values of `CVSplit` (all strings). -/
def CVSplit.pyValue : CVSplit → PyVal
  | .KFold3 => .str "3-fold"
  | .KFold5 => .str "5-fold"
  | .KFold10 => .str "10-fold"
  | .KFold20 => .str "20-fold"
  | .Holdout => .str "holdout"

/-- The members of the enum, in declaration order. -/
def CVSplit.members : List CVSplit :=
  [.KFold3, .KFold5, .KFold10, .KFold20, .Holdout]

/-- Models Python enum lookup by value, `CVSplit(v)`: the first member whose
declared value equals `v`, if any (otherwise Python raises ValueError). -/
def cvsplitLookup (v : PyVal) : Option CVSplit :=
  CVSplit.members.find? (fun m => m.pyValue == v)

/-- Outcome of Python `float(s)`: a parse failure is modelled by `none` at the
use site, and a success is NaN, an infinity, or a finite value. -/
inductive PyFloat
  | nan
  | inf
  | ninf
  | val (q : ℚ)
deriving DecidableEq

/-- Python `round` on a finite float: round half to even. -/
def pyRound (q : ℚ) : ℤ :=
  let f := ⌊q⌋
  let r := q - (f : ℚ)
  if r < 1 / 2 then f
  else if 1 / 2 < r then f + 1
  else if 2 ∣ f then f else f + 1

/-- Message of the ValueError raised when `float(s)` fails (line 105). -/
def convertErrMsg : String :=
  "Could not convert a `... -size` argument (e.g. --htune-val-size) value to float"

/-- Message of the ValueError raised on NaN (line 110). -/
def nanErrMsg : String :=
  "NaN is not a valid size"

/-- Message of the ValueError raised on a non-positive value (line 112). -/
def positiveErrMsg : String :=
  "`... -size` arguments (e.g. --htune-val-size) must be positive"

/-- Message of the ValueError raised on the value 1 (line 114). -/
def oneErrMsg : String :=
  "1 is not a valid value for `... -size` arguments (e.g. --htune-val-size)."

/-- Message of the ValueError raised on a non-integer value above 1 (line 122). -/
def kfoldErrMsg : String :=
  "`... -size` arguments (e.g. --htune-val-size) greater than 1, as it specifies the `k` in k-fold"

/-- Message of the ValueError raised by the dead rounding check (line 127). -/
def roundErrMsg : String :=
  "`--htune-val-size` must be an integer if greater than 1, as it specifies the `k` in k-fold"

/-- Text of the UserWarning emitted for k greater than 10 (line 131). -/
def warnBigMsg : String :=
  "`--htune-val-size` greater than 10 is not recommended."

/-- Message of the ValueError raised by a failed enum lookup by value (Python
includes the repr of the offending value; the constant suffix is kept). -/
def notValidMsg : String :=
  "is not a valid CVSplit"

instance : DecidableEq (Except String CVSplit) := fun x y =>
  match x, y with
  | .error a, .error b =>
    if h : a = b then isTrue (by rw [h]) else isFalse (by simp [h])
  | .error _, .ok _ => isFalse (by simp)
  | .ok _, .error _ => isFalse (by simp)
  | .ok a, .ok b =>
    if h : a = b then isTrue (by rw [h]) else isFalse (by simp [h])

/-- Result of `CVSplit.from_str`: the warnings emitted while running, and
either the returned member or the message of the raised ValueError. -/
structure FromStrOut where
  warnings : List String
  result : Except String CVSplit
deriving DecidableEq

/-- Shallow embedding of `CVSplit.from_str` (src/src/enumerables.py, lines
100-138). The string `s` is the raw argument; `p` is the outcome of the
external call `float(s)` (`none` models the conversion raising). Every branch
mirrors the source line by line, including the enum lookups by value at lines
136 and 138. -/
def CVSplit.from_str (s : String) (p : Option PyFloat) : FromStrOut :=
  match p with
  | none => ⟨[], .error convertErrMsg⟩
  | some .nan => ⟨[], .error nanErrMsg⟩
  | some .ninf => ⟨[], .error positiveErrMsg⟩
  | some .inf => ⟨[], .error kfoldErrMsg⟩
  | some (.val cv) =>
    if cv ≤ 0 then ⟨[], .error positiveErrMsg⟩
    else if cv = 1 then ⟨[], .error oneErrMsg⟩
    else if 0 < cv ∧ cv < 1 then ⟨[], .ok .Holdout⟩
    else if 1 < cv ∧ ¬ cv.den = 1 then ⟨[], .error kfoldErrMsg⟩
    else if ¬ cv = (pyRound cv : ℚ) then ⟨[], .error roundErrMsg⟩
    else
      let warns := if 10 < cv then [warnBigMsg] else []
      if 1 < cv then
        match cvsplitLookup (.num cv) with
        | some m => ⟨warns, .ok m⟩
        | none => ⟨warns, .error notValidMsg⟩
      else
        match cvsplitLookup (.str s) with
        | some m => ⟨warns, .ok m⟩
        | none => ⟨warns, .error notValidMsg⟩

/- ----------------------------------------------------------------
   src/src/feature_selection.py
   ---------------------------------------------------------------- -/

/-- Shallow embedding of `cohens_d` (src/src/feature_selection.py, lines
53-69): for each feature column, the absolute standardized mean difference
between the target groups `y == 0` and `y == 1`, with the source's
`n1 = len(x1) - 1`, `n2 = len(x2) - 1` and its pooling of the two sample
standard deviations. -/
noncomputable def cohens_d (df : DataFrame) : List (String × ℝ) :=
  let X := df.drop "target"
  let y := df.get "target"
  X.cols.map (fun c =>
    let x1 := selectRows c.2 y 0
    let x2 := selectRows c.2 y 1
    let n1 : ℚ := (x1.length : ℚ) - 1
    let n2 : ℚ := (x2.length : ℚ) - 1
    let sd1 := sampleSd x1
    let sd2 := sampleSd x2
    let sdPool := Real.sqrt (((n1 : ℝ) * sd1 + (n2 : ℝ) * sd2) / ((n1 : ℝ) + (n2 : ℝ)))
    (c.1, |((qMean x1 : ℚ) : ℝ) - ((qMean x2 : ℚ) : ℝ)| / sdPool))

/-- Model of the external `sklearn.metrics.roc_auc_score(y_true, y_score)` on a
0/1 target, through its Mann-Whitney characterization (which the source's own
docstring invokes, lines 83-85): the fraction of (positive, negative) pairs
the score orders correctly, ties counting one half. -/
def roc_auc_score (yTrue xScore : List ℚ) : ℚ :=
  let pos := selectRows xScore yTrue 1
  let neg := selectRows xScore yTrue 0
  let wins :=
    (pos.map (fun a =>
      (neg.map (fun b => if b < a then (1 : ℚ) else if b = a then 1 / 2 else 0)).sum)).sum
  wins / ((pos.length : ℚ) * (neg.length : ℚ))

/-- Shallow embedding of `auroc` (src/src/feature_selection.py, lines 72-101):
per-feature AUC of the feature as predictor of the target, then the rescaling
`(aucs - 0.5).abs()`. -/
def auroc (df : DataFrame) : List (String × ℚ) :=
  let X := df.drop "target"
  let y := df.get "target"
  let aucs := X.cols.map (fun c => (c.1, roc_auc_score y c.2))
  aucs.map (fun p => (p.1, |p.2 - 1 / 2|))

/-- Model of the external pandas Pearson correlation between two columns. -/
noncomputable def pearsonR (x y : List ℚ) : ℝ :=
  let mx := qMean x
  let my := qMean y
  let num : ℚ := ((x.zip y).map (fun p => (p.1 - mx) * (p.2 - my))).sum
  let dx : ℚ := (x.map (fun a => (a - mx) ^ 2)).sum
  let dy : ℚ := (y.map (fun b => (b - my) ^ 2)).sum
  (num : ℝ) / Real.sqrt ((dx : ℝ) * (dy : ℝ))

/-- Average ranks (ties receive their mean rank), as scipy ranks data for the
Spearman correlation. -/
def rankAvg (l : List ℚ) : List ℚ :=
  l.map (fun v => (l.countP (fun w => decide (w < v)) : ℚ) + ((l.count v : ℚ) + 1) / 2)

/-- Model of the external pandas Spearman correlation: Pearson on average
ranks. -/
noncomputable def spearmanR (x y : List ℚ) : ℝ :=
  pearsonR (rankAvg x) (rankAvg y)

/-- Shallow embedding of `correlations` (src/src/feature_selection.py, lines
104-115): `X.corrwith(y, method=method).abs()` over the feature columns. -/
noncomputable def correlations (df : DataFrame) (method : String) : List (String × ℝ) :=
  let X := df.drop "target"
  let y := df.get "target"
  X.cols.map (fun c =>
    (c.1, |if method = "spearman" then spearmanR c.2 y else pearsonR c.2 y|))

/-- Shallow embedding of `remove_weak_features` (src/src/feature_selection.py,
lines 129-148). The three featuretools filters are external calls, passed as
the functions `fSingle`, `fLowInfo`, `fCorr`; `cached` is the content of the
UNCORRELATED cache file when it exists (`none` when it does not), with the
JSON round-trip `read_json (to_json x) = x` modelled as the identity. The
first component of the result is what the Python function returns, `none`
standing for Python's implicit `None`; the second component is what, if
anything, the call writes to the cache file. -/
def remove_weak_features (fSingle fLowInfo fCorr : DataFrame → DataFrame)
    (cached : Option DataFrame) (df : DataFrame) (decorrelate : Bool) :
    Option DataFrame × Option DataFrame :=
  match cached with
  | some c => (some c, none)
  | none =>
    let dfv := fSingle df
    let dfi := fLowInfo dfv
    if decorrelate = false then (some dfi, none)
    else
      let dfc := fCorr dfi
      (none, some dfc)

/-- Descending sort of a name-score series by score, models
`Series.sort_values(ascending=False)`. -/
noncomputable def sortValuesDesc {α : Type} [LinearOrder α]
    (l : List (String × α)) : List (String × α) :=
  List.insertionSort (fun a b => b.2 ≤ a.2) l

/-- Model of Python `str.lower()`: lower-case each character. -/
def pyLower (s : String) : String :=
  ⟨s.data.map Char.toLower⟩

/-- Shallow embedding of `select_features_by_univariate_rank`
(src/src/feature_selection.py, lines 150-181): dispatch on the lower-cased
metric name, sort the importance series descending, slice the first
`n_features` entries, and select those columns of `df`. -/
noncomputable def select_features_by_univariate_rank
    (df : DataFrame) (metric : String) (n_features : ℕ) : Except String DataFrame :=
  if pyLower metric = "d" then
    .ok (df.loc (((sortValuesDesc (cohens_d df)).take n_features).map Prod.fst))
  else if pyLower metric = "auc" then
    .ok (df.loc (((sortValuesDesc (auroc df)).take n_features).map Prod.fst))
  else if pyLower metric = "pearson" ∨ pyLower metric = "spearman" then
    .ok (df.loc (((sortValuesDesc (correlations df metric)).take n_features).map Prod.fst))
  else .error "Invalid metric"

/-- Shallow embedding of `get_pca_features` (src/src/feature_selection.py,
lines 184-203). The external `PCA(n, svd_solver="full", whiten=True)` fit and
transform is the data-dependent function `fitTransform`, returning the list of
component columns; the source applies it to the WHOLE frame `df`, target
column included, and names the outputs `pca-i`. -/
def get_pca_features (fitTransform : ℕ → DataFrame → List (List ℚ))
    (df : DataFrame) (n_features : ℕ) : DataFrame :=
  ⟨((fitTransform n_features df).enum).map (fun p => ("pca-" ++ toString p.1, p.2))⟩

/-- Shallow embedding of `get_kernel_pca_features` (src/src/feature_selection.py,
lines 206-224), exactly as `get_pca_features` but with the external
`KernelPCA(n, kernel="rbf", ...)` transform and `kpca-i` output names. -/
def get_kernel_pca_features (fitTransform : ℕ → DataFrame → List (List ℚ))
    (df : DataFrame) (n_features : ℕ) : DataFrame :=
  ⟨((fitTransform n_features df).enum).map (fun p => ("kpca-" ++ toString p.1, p.2))⟩

/-- Inputs claim C2 is about: everything except the integer-k branch (which is
claim C1's subject). -/
def C2domain : Option PyFloat → Prop
  | some (.val q) => ¬ (1 < q ∧ q.den = 1)
  | _ => True

instance : DecidablePred C2domain
  | none => .isTrue trivial
  | some .nan => .isTrue trivial
  | some .inf => .isTrue trivial
  | some .ninf => .isTrue trivial
  | some (.val q) => inferInstanceAs (Decidable (¬ (1 < q ∧ q.den = 1)))

/-- Modelled from the spec for claim C2 (ValidationSizeParser, spec sections
4.6 and 8), on the inputs the claim covers: a parse failure or NaN raises a
descriptive ValueError, as does a value at most 0, the value exactly 1, and a
value above 1 that is not an integer; a value strictly between 0 and 1 instead
succeeds as the holdout policy. -/
def validationSpecC2 : Option PyFloat → FromStrOut
  | none => ⟨[], .error convertErrMsg⟩
  | some .nan => ⟨[], .error nanErrMsg⟩
  | some .ninf => ⟨[], .error positiveErrMsg⟩
  | some .inf => ⟨[], .error kfoldErrMsg⟩
  | some (.val q) =>
    if q ≤ 0 then ⟨[], .error positiveErrMsg⟩
    else if q = 1 then ⟨[], .error oneErrMsg⟩
    else if q < 1 then ⟨[], .ok .Holdout⟩
    else ⟨[], .error kfoldErrMsg⟩

/-- The dataset with its target column replaced by `1 - y`, i.e. with the two
0/1 group labels swapped; every other column is untouched. -/
def swapTarget (df : DataFrame) : DataFrame :=
  ⟨df.cols.map (fun c =>
    if c.1 = "target" then (c.1, c.2.map (fun t => 1 - t)) else c)⟩

/-- What the amended claim C3 asserts of a selection result `res` built from
the importance series `imp`: the result is, in some descending-sorted
reordering of the series, the first `n` feature columns of the frame with
their original data, its length is `n` clamped to the number of features,
every kept score dominates every dropped score, and the target column is not
among the kept columns. -/
def TopSelection {α : Type} [LinearOrder α] (df : DataFrame) (n : ℕ)
    (imp : List (String × α)) (res : Except String DataFrame) : Prop :=
  ∃ sorted : List (String × α),
    imp.Perm sorted ∧
    sorted.Sorted (fun a b => b.2 ≤ a.2) ∧
    (∀ p ∈ sorted.take n, ∀ q ∈ sorted.drop n, q.2 ≤ p.2) ∧
    res = .ok ⟨(sorted.take n).map (fun p => (p.1, df.get p.1))⟩ ∧
    (sorted.take n).length = min n imp.length ∧
    "target" ∉ (sorted.take n).map Prod.fst

/-- Concrete dataset for the C3 counterexample and witness. -/
def dfC3 : DataFrame := ⟨[("a", [1, 2]), ("target", [0, 1])]⟩

/-- Concrete dataset for the C8 witness. -/
def dfC8 : DataFrame := ⟨[("x", [1, 2, 3]), ("target", [0, 1, 1])]⟩

/- ----------------------------------------------------------------
   Claims C4, C5, C10: remove_weak_features control flow
   ---------------------------------------------------------------- -/

/-- C4: with no cached artifact and `decorrelate = true`, `remove_weak_features`
applies the single-value filter, then the low-information filter, then the
correlation filter, in that order, and persists the filtered result to the
cache path - but then falls off the end of the function and returns Python's
implicit `None` instead of the filtered dataset (the `return df_c` the claim
and the `-> DataFrame` annotation require is missing at line 148). -/
theorem remove_weak_features_fresh_decorrelate
    (fSingle fLowInfo fCorr : DataFrame → DataFrame) (df : DataFrame) :
    remove_weak_features fSingle fLowInfo fCorr none df true =
      (none, some (fCorr (fLowInfo (fSingle df)))) := rfl

/-- C5: when the cached artifact exists, `remove_weak_features` returns the
deserialized cache unchanged and writes nothing, and the outcome is the same
whatever filter functions, input frame, and decorrelate flag are supplied -
none of the filtering stages can influence it. -/
theorem remove_weak_features_cached
    (fSingle fLowInfo fCorr gSingle gLowInfo gCorr : DataFrame → DataFrame)
    (df df' : DataFrame) (dec dec' : Bool) (c : DataFrame) :
    remove_weak_features fSingle fLowInfo fCorr (some c) df dec = (some c, none) ∧
    remove_weak_features fSingle fLowInfo fCorr (some c) df dec =
      remove_weak_features gSingle gLowInfo gCorr (some c) df' dec' :=
  ⟨rfl, rfl⟩

/-- C10: with no cached artifact and `decorrelate = false`,
`remove_weak_features` returns the frame after only the single-value and
low-information stages, in that order, and writes nothing to the cache: the
persisted artifact is created only on the decorrelate path. -/
theorem remove_weak_features_fresh_nodecorrelate
    (fSingle fLowInfo fCorr : DataFrame → DataFrame) (df : DataFrame) :
    remove_weak_features fSingle fLowInfo fCorr none df false =
      (some (fLowInfo (fSingle df)), none) := rfl

/- ----------------------------------------------------------------
   Claim C9: PCA and kernel PCA are fitted on the target column too
   ---------------------------------------------------------------- -/

/-- C9: `get_pca_features` and `get_kernel_pca_features` hand the whole frame,
target column included, to the external fit-and-transform. Hence (first part)
there are transforms and frames differing only in the target column whose
component outputs differ; and (second part) had the source dropped the target
before fitting, as the other selectors do, no transform could tell two such
frames apart. -/
theorem pca_fits_on_target_column :
    (∃ (pcaFit kpcaFit : ℕ → DataFrame → List (List ℚ)) (df1 df2 : DataFrame) (n : ℕ),
      df1.drop "target" = df2.drop "target" ∧
      df1.get "target" ≠ df2.get "target" ∧
      get_pca_features pcaFit df1 n ≠ get_pca_features pcaFit df2 n ∧
      get_kernel_pca_features kpcaFit df1 n ≠ get_kernel_pca_features kpcaFit df2 n) ∧
    (∀ (fit : ℕ → DataFrame → List (List ℚ)) (df1 df2 : DataFrame) (n : ℕ),
      df1.drop "target" = df2.drop "target" →
      get_pca_features (fun k d => fit k (d.drop "target")) df1 n =
        get_pca_features (fun k d => fit k (d.drop "target")) df2 n ∧
      get_kernel_pca_features (fun k d => fit k (d.drop "target")) df1 n =
        get_kernel_pca_features (fun k d => fit k (d.drop "target")) df2 n) := by
  constructor
  · refine ⟨fun _ d => [d.get "target"], fun _ d => [d.get "target"],
      ⟨[("a", [0, 0]), ("target", [0, 1])]⟩,
      ⟨[("a", [0, 0]), ("target", [1, 0])]⟩, 1, ?_, ?_, ?_, ?_⟩ <;> decide
  · intro fit df1 df2 n h
    constructor
    · unfold get_pca_features; beta_reduce; rw [h]
    · unfold get_kernel_pca_features; beta_reduce; rw [h]

/-- Witness for the hypothesis-bearing part of the C9 theorem: two concrete
frames agreeing off the target column give equal outputs once the transform
only sees the target-dropped frame. -/
theorem pca_fits_on_target_column_witness :
    (DataFrame.mk [("a", [0, 0]), ("target", [0, 1])]).drop "target" =
      (DataFrame.mk [("a", [0, 0]), ("target", [1, 0])]).drop "target" ∧
    get_pca_features (fun k d => (fun _ d' => [d'.get "a"]) k (d.drop "target"))
        ⟨[("a", [0, 0]), ("target", [0, 1])]⟩ 1 =
      get_pca_features (fun k d => (fun _ d' => [d'.get "a"]) k (d.drop "target"))
        ⟨[("a", [0, 0]), ("target", [1, 0])]⟩ 1 :=
  ⟨by decide,
    (pca_fits_on_target_column.2 (fun _ d' => [d'.get "a"])
      ⟨[("a", [0, 0]), ("target", [0, 1])]⟩
      ⟨[("a", [0, 0]), ("target", [1, 0])]⟩ 1 (by decide)).1⟩

/- ----------------------------------------------------------------
   Claim C1: from_str on integer fold counts
   ---------------------------------------------------------------- -/

/-- Enum lookup by value with a float candidate never matches: every declared
`CVSplit` value is a string. -/
theorem cvsplitLookup_num (q : ℚ) : cvsplitLookup (.num q) = none := rfl

/-- C1 (code bug): for every string parsing to an integer k with k at least 2,
`CVSplit.from_str` passes all validation, emits the quality warning exactly
when k exceeds 10 - and then raises ValueError anyway, because the member
lookup `CVSplit(cv)` at line 136 compares the float against the enum's string
values. The claim's promised success never happens for any integer input. -/
theorem from_str_integer_k_raises (s : String) (q : ℚ)
    (hden : q.den = 1) (h2 : 2 ≤ q) :
    CVSplit.from_str s (some (.val q)) =
      ⟨if 10 < q then [warnBigMsg] else [], .error notValidMsg⟩ := by
  have hq1 : (1 : ℚ) < q := lt_of_lt_of_le (by norm_num) h2
  have hnum : (q.num : ℚ) = q := by
    conv_rhs => rw [← Rat.num_div_den q]
    rw [hden]
    norm_num
  have hfloor : ⌊q⌋ = q.num := by
    have h := Int.floor_intCast (α := ℚ) q.num
    rw [hnum] at h
    exact h
  have hround : (pyRound q : ℚ) = q := by
    have hz : q - ((⌊q⌋ : ℤ) : ℚ) = 0 := by rw [hfloor, hnum]; ring
    simp only [pyRound, hz]
    norm_num
    rw [hfloor, hnum]
  show (if q ≤ 0 then (⟨[], .error positiveErrMsg⟩ : FromStrOut)
    else if q = 1 then ⟨[], .error oneErrMsg⟩
    else if 0 < q ∧ q < 1 then ⟨[], .ok .Holdout⟩
    else if 1 < q ∧ ¬ q.den = 1 then ⟨[], .error kfoldErrMsg⟩
    else if ¬ q = (pyRound q : ℚ) then ⟨[], .error roundErrMsg⟩
    else
      let warns := if 10 < q then [warnBigMsg] else []
      if 1 < q then
        match cvsplitLookup (.num q) with
        | some m => ⟨warns, .ok m⟩
        | none => ⟨warns, .error notValidMsg⟩
      else
        match cvsplitLookup (.str s) with
        | some m => ⟨warns, .ok m⟩
        | none => ⟨warns, .error notValidMsg⟩) = _
  rw [if_neg (by linarith : ¬ q ≤ 0)]
  rw [if_neg (by intro h; rw [h] at hq1; exact lt_irrefl 1 hq1 : ¬ q = 1)]
  rw [if_neg (by rintro ⟨-, h⟩; linarith : ¬ (0 < q ∧ q < 1))]
  rw [if_neg (by rintro ⟨-, h⟩; exact h hden : ¬ (1 < q ∧ ¬ q.den = 1))]
  rw [if_neg (by rw [hround]; exact fun h => h rfl : ¬ ¬ q = (pyRound q : ℚ))]
  rw [if_pos hq1, cvsplitLookup_num]

/-- Witness for the C1 theorem at k = 11: an integer above 10, where the claim
expects a warning plus success and the code warns and then raises. -/
theorem from_str_integer_k_raises_witness :
    (11 : ℚ).den = 1 ∧ (2 : ℚ) ≤ 11 ∧
    CVSplit.from_str "11" (some (.val 11)) = ⟨[warnBigMsg], .error notValidMsg⟩ := by
  refine ⟨by decide, by decide, ?_⟩
  have h := from_str_integer_k_raises "11" 11 (by decide) (by decide)
  rw [if_pos (by decide : (10 : ℚ) < 11)] at h
  exact h

/- ----------------------------------------------------------------
   Claim C2: from_str validation and the holdout branch
   ---------------------------------------------------------------- -/

/-- C2 counterexample to the claim as stated: two different fractions in (0,1)
produce the very same output, the bare `Holdout` member - so the parsed value
is NOT retained as the holdout fraction anywhere in the result (the `CVSplit`
enum has no field that could carry it). -/
theorem from_str_holdout_drops_fraction :
    CVSplit.from_str "0.2" (some (.val (mkRat 1 5))) = ⟨[], .ok .Holdout⟩ ∧
    CVSplit.from_str "0.3" (some (.val (mkRat 3 10))) = ⟨[], .ok .Holdout⟩ ∧
    mkRat 1 5 ≠ mkRat 3 10 :=
  ⟨by decide, by decide, by decide⟩

/-- C2 (amended): `CVSplit.from_str` raises a descriptive ValueError for a
string that does not parse as a float and for every parsed value that is NaN,
at most 0, exactly 1, or above 1 but not an integer, and for every parsed
value strictly between 0 and 1 it succeeds, classifying the input as the
holdout policy - but the returned `CVSplit.Holdout` carries no fraction: any
two in-range fractions yield identical outputs (second conjunct). -/
theorem from_str_c2_validation (s s' : String) (p : Option PyFloat) (q q' : ℚ)
    (hdom : C2domain p) (hq0 : 0 < q) (hq1 : q < 1)
    (hq0' : 0 < q') (hq1' : q' < 1) :
    CVSplit.from_str s p = validationSpecC2 p ∧
    CVSplit.from_str s (some (.val q)) = CVSplit.from_str s' (some (.val q')) := by
  have holdoutEval : ∀ (t : String) (r : ℚ), 0 < r → r < 1 →
      CVSplit.from_str t (some (.val r)) = ⟨[], .ok .Holdout⟩ := by
    intro t r h0 h1
    simp only [CVSplit.from_str]
    rw [if_neg (not_le.mpr h0),
      if_neg (by intro h; rw [h] at h1; exact lt_irrefl 1 h1), if_pos ⟨h0, h1⟩]
  constructor
  · cases p with
    | none => rfl
    | some pf =>
      cases pf with
      | nan => rfl
      | inf => rfl
      | ninf => rfl
      | val cv =>
        have hdom' : ¬ (1 < cv ∧ cv.den = 1) := hdom
        simp only [CVSplit.from_str, validationSpecC2]
        by_cases hle : cv ≤ 0
        · rw [if_pos hle, if_pos hle]
        · rw [if_neg hle, if_neg hle]
          by_cases h1 : cv = 1
          · rw [if_pos h1, if_pos h1]
          · rw [if_neg h1, if_neg h1]
            by_cases hlt : cv < 1
            · rw [if_pos ⟨not_le.mp hle, hlt⟩, if_pos hlt]
            · have hgt : 1 < cv := lt_of_le_of_ne (not_lt.mp hlt) (Ne.symm h1)
              have hnden : ¬ cv.den = 1 := fun hd => hdom' ⟨hgt, hd⟩
              rw [if_neg (by rintro ⟨-, h⟩; exact hlt h),
                if_pos ⟨hgt, hnden⟩, if_neg hlt]
  · rw [holdoutEval s q hq0 hq1, holdoutEval s' q' hq0' hq1']

/-- Witness for the C2 theorem at concrete inputs: domain membership and the
range bounds hold at 1/2, 1/5, 3/10, and the theorem applies. -/
theorem from_str_c2_validation_witness :
    C2domain (some (.val (mkRat 1 2))) ∧
    0 < mkRat 1 5 ∧ mkRat 1 5 < 1 ∧ 0 < mkRat 3 10 ∧ mkRat 3 10 < 1 ∧
    CVSplit.from_str "0.5" (some (.val (mkRat 1 2))) = validationSpecC2 (some (.val (mkRat 1 2))) ∧
    CVSplit.from_str "0.5" (some (.val (mkRat 1 5))) = CVSplit.from_str "x" (some (.val (mkRat 3 10))) := by
  have h := from_str_c2_validation "0.5" "x" (some (.val (mkRat 1 2))) (mkRat 1 5) (mkRat 3 10)
    (by decide) (by decide) (by decide) (by decide) (by decide)
  exact ⟨by decide, by decide, by decide, by decide, by decide, h.1, h.2⟩

/- ----------------------------------------------------------------
   Claim C6: the Cohen's d formula
   ---------------------------------------------------------------- -/

/-- C6: on a dataset with a 0/1 target and both groups non-empty, `cohens_d`
returns, for each feature, |mean(group1) - mean(group0)| divided by
sqrt(((n1-1)*sd1 + (n0-1)*sd0) / (n1+n0-2)), with n1, n0 the group sizes and
sd1, sd0 the per-group sample standard deviations (ddof = 1): the source's
`n1 = len(x1) - 1`, `n2 = len(x2) - 1` bookkeeping realizes exactly these
group-size offsets. -/
theorem cohens_d_formula (df : DataFrame)
    (h0 : 0 < (df.get "target").count 0)
    (h1 : 0 < (df.get "target").count 1)
    (hbin : ∀ t ∈ df.get "target", t = 0 ∨ t = 1)
    (hlen : ∀ c ∈ df.cols, c.2.length = (df.get "target").length) :
    cohens_d df = (df.drop "target").cols.map (fun c =>
      let g1 := selectRows c.2 (df.get "target") 1
      let g0 := selectRows c.2 (df.get "target") 0
      (c.1, |((qMean g1 : ℚ) : ℝ) - ((qMean g0 : ℚ) : ℝ)| /
        Real.sqrt ((((g1.length : ℝ) - 1) * sampleSd g1 +
            ((g0.length : ℝ) - 1) * sampleSd g0) /
          ((g1.length : ℝ) + (g0.length : ℝ) - 2)))) := by
  unfold cohens_d
  apply List.map_congr_left
  intro c hc
  dsimp only
  refine congrArg (fun z => (c.1, z)) ?_
  refine congrArg₂ (· / ·) (abs_sub_comm _ _) (congrArg Real.sqrt ?_)
  push_cast
  ring

/-- Witness for the C6 theorem on a concrete four-row dataset with two rows in
each target group. -/
theorem cohens_d_formula_witness :
    (0 < ((DataFrame.mk [("x", [1, 2, 3, 4]), ("target", [0, 0, 1, 1])]).get "target").count 0 ∧
      0 < ((DataFrame.mk [("x", [1, 2, 3, 4]), ("target", [0, 0, 1, 1])]).get "target").count 1 ∧
      (∀ t ∈ (DataFrame.mk [("x", [1, 2, 3, 4]), ("target", [0, 0, 1, 1])]).get "target",
        t = 0 ∨ t = 1) ∧
      (∀ c ∈ (DataFrame.mk [("x", [1, 2, 3, 4]), ("target", [0, 0, 1, 1])]).cols,
        c.2.length =
          ((DataFrame.mk [("x", [1, 2, 3, 4]), ("target", [0, 0, 1, 1])]).get "target").length)) ∧
    cohens_d ⟨[("x", [1, 2, 3, 4]), ("target", [0, 0, 1, 1])]⟩ =
      ((DataFrame.mk [("x", [1, 2, 3, 4]), ("target", [0, 0, 1, 1])]).drop "target").cols.map
        (fun c =>
          let g1 := selectRows c.2
            ((DataFrame.mk [("x", [1, 2, 3, 4]), ("target", [0, 0, 1, 1])]).get "target") 1
          let g0 := selectRows c.2
            ((DataFrame.mk [("x", [1, 2, 3, 4]), ("target", [0, 0, 1, 1])]).get "target") 0
          (c.1, |((qMean g1 : ℚ) : ℝ) - ((qMean g0 : ℚ) : ℝ)| /
            Real.sqrt ((((g1.length : ℝ) - 1) * sampleSd g1 +
                ((g0.length : ℝ) - 1) * sampleSd g0) /
              ((g1.length : ℝ) + (g0.length : ℝ) - 2)))) :=
  ⟨⟨by decide, by decide, by decide, by decide⟩,
    cohens_d_formula ⟨[("x", [1, 2, 3, 4]), ("target", [0, 0, 1, 1])]⟩
      (by decide) (by decide) (by decide) (by decide)⟩

/- ----------------------------------------------------------------
   Claim C7: Cohen's d is invariant under swapping the group labels
   ---------------------------------------------------------------- -/

/-- Swapping the target leaves the feature columns unchanged. -/
theorem drop_swapTarget (df : DataFrame) :
    (swapTarget df).drop "target" = df.drop "target" := by
  obtain ⟨l⟩ := df
  simp only [swapTarget, DataFrame.drop]
  congr 1
  induction l with
  | nil => rfl
  | cons a t ih =>
    by_cases h : a.1 = "target"
    · simp only [List.map_cons, List.filter_cons, if_pos h, h]
      simpa using ih
    · simp only [List.map_cons, List.filter_cons, if_neg h]
      simp [h, ih]
  
/-- Swapping the target maps the target column pointwise through `1 - t`. -/
theorem get_swapTarget (df : DataFrame) :
    (swapTarget df).get "target" = (df.get "target").map (fun t => 1 - t) := by
  obtain ⟨l⟩ := df
  simp only [swapTarget, DataFrame.get, DataFrame.find]
  induction l with
  | nil => rfl
  | cons a t ih =>
    by_cases h : a.1 = "target"
    · simp [List.find?_cons, h]
    · simpa [List.find?_cons, h] using ih

/-- Selecting the rows where `1 - t = 0` is selecting the rows where `t = 1`. -/
theorem selectRows_one_sub_zero (xs ys : List ℚ) :
    selectRows xs (ys.map (fun t => 1 - t)) 0 = selectRows xs ys 1 := by
  unfold selectRows
  rw [List.zip_map_right, List.filterMap_map]
  congr 1
  funext p
  obtain ⟨x, t⟩ := p
  by_cases h : t = 1
  · rw [Function.comp_apply]
    simp only [Prod.map_apply, id]
    rw [if_pos (by rw [h]; norm_num), if_pos h]
  · rw [Function.comp_apply]
    simp only [Prod.map_apply, id]
    rw [if_neg (fun hc => h (by linarith [sub_eq_zero.mp hc])), if_neg h]

/-- Selecting the rows where `1 - t = 1` is selecting the rows where `t = 0`. -/
theorem selectRows_one_sub_one (xs ys : List ℚ) :
    selectRows xs (ys.map (fun t => 1 - t)) 1 = selectRows xs ys 0 := by
  unfold selectRows
  rw [List.zip_map_right, List.filterMap_map]
  congr 1
  funext p
  obtain ⟨x, t⟩ := p
  by_cases h : t = 0
  · rw [Function.comp_apply]
    simp only [Prod.map_apply, id]
    rw [if_pos (by rw [h]; norm_num), if_pos h]
  · rw [Function.comp_apply]
    simp only [Prod.map_apply, id]
    rw [if_neg (fun hc => h (by linarith [sub_eq_self.mp hc])), if_neg h]

/-- C7: on a dataset with a 0/1 target, replacing the target by `1 - y` (i.e.
swapping the two group labels) leaves `cohens_d` unchanged on every feature:
the two groups trade places and the formula is symmetric in them. -/
theorem cohens_d_label_swap (df : DataFrame)
    (hbin : ∀ t ∈ df.get "target", t = 0 ∨ t = 1) :
    cohens_d (swapTarget df) = cohens_d df := by
  unfold cohens_d
  rw [drop_swapTarget, get_swapTarget]
  apply List.map_congr_left
  intro c hc
  dsimp only
  rw [selectRows_one_sub_zero, selectRows_one_sub_one]
  refine congrArg (fun z => (c.1, z)) ?_
  refine congrArg₂ (· / ·) (abs_sub_comm _ _) (congrArg Real.sqrt ?_)
  ring

/-- Witness for the C7 theorem on a concrete binary-target dataset. -/
theorem cohens_d_label_swap_witness :
    (∀ t ∈ (DataFrame.mk [("x", [5, 7, 9]), ("target", [0, 1, 1])]).get "target",
      t = 0 ∨ t = 1) ∧
    cohens_d (swapTarget ⟨[("x", [5, 7, 9]), ("target", [0, 1, 1])]⟩) =
      cohens_d ⟨[("x", [5, 7, 9]), ("target", [0, 1, 1])]⟩ :=
  ⟨by decide,
    cohens_d_label_swap ⟨[("x", [5, 7, 9]), ("target", [0, 1, 1])]⟩ (by decide)⟩

/- ----------------------------------------------------------------
   Claim C8: auroc is the rescaled AUC and lands in [0, 1/2]
   ---------------------------------------------------------------- -/

/-- Each pairwise comparison contributes between 0 and 1 to the Mann-Whitney
count. -/
theorem pairScore_nonneg_le_one (a b : ℚ) :
    (0 : ℚ) ≤ (if b < a then (1 : ℚ) else if b = a then 1 / 2 else 0) ∧
    (if b < a then (1 : ℚ) else if b = a then 1 / 2 else 0) ≤ 1 := by
  by_cases h1 : b < a
  · simp [h1]
  · by_cases h2 : b = a
    · rw [if_neg h1, if_pos h2]
      norm_num
    · rw [if_neg h1, if_neg h2]
      norm_num

/-- The per-positive row of the Mann-Whitney count is between 0 and the number
of negatives. -/
theorem pairInner_bounds (a : ℚ) (neg : List ℚ) :
    0 ≤ (neg.map (fun b => if b < a then (1 : ℚ) else if b = a then 1 / 2 else 0)).sum ∧
    (neg.map (fun b => if b < a then (1 : ℚ) else if b = a then 1 / 2 else 0)).sum ≤
      (neg.length : ℚ) := by
  constructor
  · apply List.sum_nonneg
    intro v hv
    obtain ⟨b, hb, rfl⟩ := List.mem_map.mp hv
    exact (pairScore_nonneg_le_one a b).1
  · have h := List.sum_le_card_nsmul
      (neg.map (fun b => if b < a then (1 : ℚ) else if b = a then 1 / 2 else 0)) 1 ?_
    · simpa [nsmul_eq_mul] using h
    · intro v hv
      obtain ⟨b, hb, rfl⟩ := List.mem_map.mp hv
      exact (pairScore_nonneg_le_one a b).2

/-- The Mann-Whitney count is between 0 and the number of pairs. -/
theorem pairWins_bounds (pos neg : List ℚ) :
    0 ≤ (pos.map (fun a =>
        (neg.map (fun b => if b < a then (1 : ℚ) else if b = a then 1 / 2 else 0)).sum)).sum ∧
    (pos.map (fun a =>
        (neg.map (fun b => if b < a then (1 : ℚ) else if b = a then 1 / 2 else 0)).sum)).sum ≤
      (pos.length : ℚ) * (neg.length : ℚ) := by
  constructor
  · apply List.sum_nonneg
    intro v hv
    obtain ⟨a, ha, rfl⟩ := List.mem_map.mp hv
    exact (pairInner_bounds a neg).1
  · have h := List.sum_le_card_nsmul
      (pos.map (fun a =>
        (neg.map (fun b => if b < a then (1 : ℚ) else if b = a then 1 / 2 else 0)).sum))
      ((neg.length : ℚ)) ?_
    · simpa [nsmul_eq_mul] using h
    · intro v hv
      obtain ⟨a, ha, rfl⟩ := List.mem_map.mp hv
      exact (pairInner_bounds a neg).2

/-- The modelled AUC always lies in the unit interval. -/
theorem roc_auc_score_mem_unit (y x : List ℚ) :
    0 ≤ roc_auc_score y x ∧ roc_auc_score y x ≤ 1 := by
  obtain ⟨hw0, hw1⟩ := pairWins_bounds (selectRows x y 1) (selectRows x y 0)
  unfold roc_auc_score
  dsimp only
  constructor
  · exact div_nonneg hw0 (by positivity)
  · rcases eq_or_lt_of_le (show (0 : ℚ) ≤
        ((selectRows x y 1).length : ℚ) * ((selectRows x y 0).length : ℚ) from by positivity)
      with h | h
    · rw [← h, div_zero]
      norm_num
    · rw [div_le_one h]
      exact hw1

/-- C8: on a dataset with a binary target present in both classes, `auroc`
returns for each feature |AUC - 1/2|, the AUC being the area under the ROC
curve of that single feature as predictor of the target (Mann-Whitney form),
and every returned score lies in [0, 1/2]. -/
theorem auroc_rescaled_bounds (df : DataFrame)
    (h0 : 0 < (df.get "target").count 0)
    (h1 : 0 < (df.get "target").count 1)
    (hlen : ∀ c ∈ df.cols, c.2.length = (df.get "target").length) :
    auroc df = (df.drop "target").cols.map (fun c =>
      (c.1, |roc_auc_score (df.get "target") c.2 - 1 / 2|)) ∧
    ∀ p ∈ auroc df, 0 ≤ p.2 ∧ p.2 ≤ 1 / 2 := by
  have hmap : auroc df = (df.drop "target").cols.map (fun c =>
      (c.1, |roc_auc_score (df.get "target") c.2 - 1 / 2|)) := by
    unfold auroc
    dsimp only
    rw [List.map_map]
    rfl
  refine ⟨hmap, ?_⟩
  intro p hp
  rw [hmap] at hp
  obtain ⟨c, hc, rfl⟩ := List.mem_map.mp hp
  obtain ⟨ha0, ha1⟩ := roc_auc_score_mem_unit (df.get "target") c.2
  dsimp only
  refine ⟨abs_nonneg _, ?_⟩
  rw [abs_le]
  constructor <;> linarith

/-- Witness for the C8 theorem: both classes are present in the concrete
target and the theorem applies. -/
theorem auroc_rescaled_bounds_witness :
    (0 < (dfC8.get "target").count 0 ∧ 0 < (dfC8.get "target").count 1 ∧
      ∀ c ∈ dfC8.cols, c.2.length = (dfC8.get "target").length) ∧
    auroc dfC8 = (dfC8.drop "target").cols.map (fun c =>
      (c.1, |roc_auc_score (dfC8.get "target") c.2 - 1 / 2|)) ∧
    ∀ p ∈ auroc dfC8, 0 ≤ p.2 ∧ p.2 ≤ 1 / 2 :=
  ⟨⟨by decide, by decide, by decide⟩,
    auroc_rescaled_bounds dfC8 (by decide) (by decide) (by decide)⟩

/- ----------------------------------------------------------------
   Claim C3: univariate rank selection
   ---------------------------------------------------------------- -/

/-- Looking a present name up in a frame returns that name with its column. -/
theorem DataFrame.find_of_mem (df : DataFrame) (nm : String) (h : nm ∈ df.names) :
    df.find nm = some (nm, df.get nm) := by
  obtain ⟨l⟩ := df
  simp only [DataFrame.names, DataFrame.find, DataFrame.get] at *
  induction l with
  | nil => simp at h
  | cons a t ih =>
    by_cases ha : a.1 = nm
    · simp only [List.find?_cons, ha]
      simp only [beq_self_eq_true, if_true, Option.getD_some]
      rw [← ha]
    · have h' : nm ∈ t.map Prod.fst := by
        simp only [List.map_cons, List.mem_cons] at h
        rcases h with h | h
        · exact absurd h.symm ha
        · exact h
      simpa [List.find?_cons, ha] using ih h'

/-- Selecting present columns is mapping each name to its column. -/
theorem DataFrame.loc_eq_map (df : DataFrame) (ns : List String)
    (h : ∀ nm ∈ ns, nm ∈ df.names) :
    df.loc ns = ⟨ns.map (fun nm => (nm, df.get nm))⟩ := by
  unfold DataFrame.loc
  congr 1
  induction ns with
  | nil => rfl
  | cons nm t ih =>
    rw [List.filterMap_cons, df.find_of_mem nm (h nm (List.mem_cons_self nm t))]
    rw [List.map_cons, ih (fun x hx => h x (List.mem_cons_of_mem nm hx))]

/-- Every feature name differs from the target name. -/
theorem drop_names_ne (df : DataFrame) (nm : String)
    (h : nm ∈ (df.drop "target").names) : nm ≠ "target" := by
  unfold DataFrame.drop DataFrame.names at h
  obtain ⟨c, hc, rfl⟩ := List.mem_map.mp h
  have hc' : c ∈ List.filter (fun c : String × List ℚ => c.1 != "target") df.cols := hc
  have hp := (List.mem_filter.mp hc').2
  exact bne_iff_ne.mp hp

/-- Feature names are names of the frame. -/
theorem drop_names_subset (df : DataFrame) :
    (df.drop "target").names ⊆ df.names := by
  intro nm h
  simp only [DataFrame.drop, DataFrame.names] at h ⊢
  obtain ⟨c, hc, rfl⟩ := List.mem_map.mp h
  have hc' : c ∈ List.filter (fun c : String × List ℚ => c.1 != "target") df.cols := hc
  exact List.mem_map_of_mem _ (List.mem_of_mem_filter hc')

/-- The names of the Cohen's d importance series are the feature names. -/
theorem cohens_d_names (df : DataFrame) :
    (cohens_d df).map Prod.fst = (df.drop "target").names := by
  unfold cohens_d DataFrame.names
  dsimp only
  rw [List.map_map]
  rfl

/-- The names of the auroc importance series are the feature names. -/
theorem auroc_names (df : DataFrame) :
    (auroc df).map Prod.fst = (df.drop "target").names := by
  unfold auroc DataFrame.names
  dsimp only
  rw [List.map_map, List.map_map]
  rfl

/-- The names of the correlation importance series are the feature names. -/
theorem correlations_names (df : DataFrame) (method : String) :
    (correlations df method).map Prod.fst = (df.drop "target").names := by
  unfold correlations DataFrame.names
  dsimp only
  rw [List.map_map]
  rfl

/-- Sorting the importance series descending and slicing the head yields a
top-`n` selection in the sense of `TopSelection`. -/
theorem topSelection_sorted {α : Type} [LinearOrder α] (df : DataFrame) (n : ℕ)
    (imp : List (String × α))
    (hnames : imp.map Prod.fst = (df.drop "target").names) :
    TopSelection df n imp
      (.ok (df.loc (((sortValuesDesc imp).take n).map Prod.fst))) := by
  haveI htot : IsTotal (String × α) (fun a b => b.2 ≤ a.2) := ⟨fun a b => le_total b.2 a.2⟩
  haveI htrans : IsTrans (String × α) (fun a b => b.2 ≤ a.2) :=
    ⟨fun a b c hab hbc => le_trans hbc hab⟩
  have hperm : (sortValuesDesc imp).Perm imp := List.perm_insertionSort _ imp
  have hmem_imp : ∀ p ∈ (sortValuesDesc imp).take n, p ∈ imp := fun p hp =>
    hperm.mem_iff.mp (List.take_subset n _ hp)
  have hsub : ∀ nm ∈ ((sortValuesDesc imp).take n).map Prod.fst, nm ∈ df.names := by
    intro nm hnm
    obtain ⟨p, hp, rfl⟩ := List.mem_map.mp hnm
    have : p.1 ∈ imp.map Prod.fst := List.mem_map_of_mem _ (hmem_imp p hp)
    rw [hnames] at this
    exact drop_names_subset df this
  refine ⟨sortValuesDesc imp, hperm.symm, List.sorted_insertionSort _ imp, ?_, ?_, ?_, ?_⟩
  · intro p hp q hq
    have hpw : List.Pairwise (fun a b : String × α => b.2 ≤ a.2)
        ((sortValuesDesc imp).take n ++ (sortValuesDesc imp).drop n) := by
      rw [List.take_append_drop]
      exact List.sorted_insertionSort _ imp
    exact (List.pairwise_append.mp hpw).2.2 p hp q hq
  · rw [DataFrame.loc_eq_map df _ hsub, List.map_map]
    rfl
  · rw [List.length_take, hperm.length_eq]
  · intro hmem
    obtain ⟨p, hp, hfst⟩ := List.mem_map.mp hmem
    have : p.1 ∈ (df.drop "target").names := by
      rw [← hnames]
      exact List.mem_map_of_mem _ (hmem_imp p hp)
    exact drop_names_ne df p.1 this hfst

/-- Dispatch of the selector at metric "d". -/
theorem select_univ_d (df : DataFrame) (n : ℕ) :
    select_features_by_univariate_rank df "d" n =
      .ok (df.loc (((sortValuesDesc (cohens_d df)).take n).map Prod.fst)) := rfl

/-- Dispatch of the selector at metric "auc". -/
theorem select_univ_auc (df : DataFrame) (n : ℕ) :
    select_features_by_univariate_rank df "auc" n =
      .ok (df.loc (((sortValuesDesc (auroc df)).take n).map Prod.fst)) := rfl

/-- Dispatch of the selector at metric "pearson". -/
theorem select_univ_pearson (df : DataFrame) (n : ℕ) :
    select_features_by_univariate_rank df "pearson" n =
      .ok (df.loc (((sortValuesDesc (correlations df "pearson")).take n).map Prod.fst)) := rfl

/-- Dispatch of the selector at metric "spearman". -/
theorem select_univ_spearman (df : DataFrame) (n : ℕ) :
    select_features_by_univariate_rank df "spearman" n =
      .ok (df.loc (((sortValuesDesc (correlations df "spearman")).take n).map Prod.fst)) := rfl

/-- C3 (amended): for each valid metric identifier, the selector returns the
frame restricted to the `n` features with the highest metric scores (descending
order, clamped to the feature count, original column data kept) - but WITHOUT
the target column: the source returns `df.loc[:, strongest.index]` over the
feature-only importance index and never re-attaches "target". -/
theorem select_univ_rank_top (df : DataFrame) (n : ℕ)
    (hnd : df.names.Nodup) :
    TopSelection df n (cohens_d df) (select_features_by_univariate_rank df "d" n) ∧
    TopSelection df n (auroc df) (select_features_by_univariate_rank df "auc" n) ∧
    TopSelection df n (correlations df "pearson")
      (select_features_by_univariate_rank df "pearson" n) ∧
    TopSelection df n (correlations df "spearman")
      (select_features_by_univariate_rank df "spearman" n) := by
  refine ⟨?_, ?_, ?_, ?_⟩
  · rw [select_univ_d]
    exact topSelection_sorted df n _ (cohens_d_names df)
  · rw [select_univ_auc]
    exact topSelection_sorted df n _ (auroc_names df)
  · rw [select_univ_pearson]
    exact topSelection_sorted df n _ (correlations_names df "pearson")
  · rw [select_univ_spearman]
    exact topSelection_sorted df n _ (correlations_names df "spearman")

/-- Witness for the C3 theorem: the concrete frame has distinct column names
and the theorem applies (shown here for the "auc" conjunct). -/
theorem select_univ_rank_top_witness :
    dfC3.names.Nodup ∧
    TopSelection dfC3 1 (auroc dfC3) (select_features_by_univariate_rank dfC3 "auc" 1) :=
  ⟨by decide, (select_univ_rank_top dfC3 1 (by decide)).2.1⟩

/-- C3 counterexample to the claim as stated: at `n_features = 0` the claim
promises a target-only table, but the selector returns a frame with no columns
at all - the target column of the input (which is present) is not re-attached. -/
theorem select_univ_rank_no_target :
    select_features_by_univariate_rank dfC3 "auc" 0 = .ok ⟨[]⟩ ∧
    "target" ∈ dfC3.names ∧
    "target" ∉ (DataFrame.mk []).names :=
  ⟨rfl, by decide, by decide⟩
